import Mathlib

set_option maxRecDepth 8000

/-! Shallow embedding of a small JavaScript repository containing four
    independent pure functions: a WhatsApp-style chat line parser
    (src/06-whatsapp-parser.js), a form field validator, a Mumbai local
    pass formatter (src/05-mumbai-local-pass.js), and a railway PNR
    status processor (src/12-railway-pnr-system.js).  JavaScript strings
    are modelled as lists of unicode scalar characters, JavaScript
    values as the inductive type JSValue, and code that can throw a
    TypeError returns in the Except monad. -/

/-- JavaScript strings are modelled as lists of characters. -/
abbrev Str := List Char

/-- ASCII whitespace characters: the part of the JavaScript whitespace
    class (used by String.prototype.trim and by whitespace-delimited
    tokenisation) that occurs in the inputs we reason about. -/
def isWSChar (c : Char) : Bool :=
  c == ' ' || c == '\t' || c == '\n' || c == '\r' || c == '\x0B' || c == '\x0C'

def isDigitChar (c : Char) : Bool :=
  decide ('0' ≤ c) && decide (c ≤ '9')

/-- The ASCII lower/upper case letter pairs. -/
def ucPairs : List (Char × Char) :=
  [('a','A'),('b','B'),('c','C'),('d','D'),('e','E'),('f','F'),('g','G'),
   ('h','H'),('i','I'),('j','J'),('k','K'),('l','L'),('m','M'),('n','N'),
   ('o','O'),('p','P'),('q','Q'),('r','R'),('s','S'),('t','T'),('u','U'),
   ('v','V'),('w','W'),('x','X'),('y','Y'),('z','Z')]

/-- Character-wise ASCII uppercasing, modelling toUpperCase on the data
    appearing in this repository. -/
def jsToUpperChar (c : Char) : Char :=
  match ucPairs.find? (fun q => q.fst == c) with
  | some q => q.snd
  | none => c

/-- Character-wise ASCII lowercasing, modelling toLowerCase on the data
    appearing in this repository. -/
def jsToLowerChar (c : Char) : Char :=
  match ucPairs.find? (fun q => q.snd == c) with
  | some q => q.fst
  | none => c

/-- String.prototype.toLowerCase. -/
def jsToLower (s : Str) : Str := s.map jsToLowerChar

/-- String.prototype.toUpperCase. -/
def jsToUpper (s : Str) : Str := s.map jsToUpperChar

/-- String.prototype.trim: remove whitespace from both ends. -/
def jsTrim (s : Str) : Str :=
  ((s.dropWhile isWSChar).reverse.dropWhile isWSChar).reverse

/-- String.prototype.startsWith. -/
def strStarts : Str → Str → Bool
  | [], _ => true
  | _ :: _, [] => false
  | p :: ps, c :: cs => p == c && strStarts ps cs

/-- Index of the first occurrence of a (non-empty) pattern, as in
    String.prototype.indexOf; none models the -1 result. -/
def findSub (pat : Str) : Str → Option Nat
  | [] => if pat.isEmpty then some 0 else none
  | c :: rest =>
    if strStarts pat (c :: rest) then some 0
    else (findSub pat rest).map (fun n => n + 1)

/-- String.prototype.includes. -/
def strContains (pat s : Str) : Bool := (findSub pat s).isSome

/-- String.prototype.indexOf for a single character, with the JavaScript
    -1 convention. -/
def jsIndexOfChar (s : Str) (c : Char) : Int :=
  match findSub [c] s with
  | none => -1
  | some i => (i : Int)

/-- String.prototype.lastIndexOf for a single character, with the
    JavaScript -1 convention. -/
def jsLastIndexOfChar (s : Str) (c : Char) : Int :=
  match findSub [c] s.reverse with
  | none => -1
  | some i => ((s.length - 1 - i : Nat) : Int)

/-- String.prototype.split with a single-character separator, given as a
    predicate on characters: consecutive separators produce empty
    tokens, and the empty string splits into one empty token. -/
def jsSplitP (p : Char → Bool) : Str → List Str
  | [] => [[]]
  | c :: rest =>
    match jsSplitP p rest with
    | [] => [[c]]
    | t :: ts => if p c then [] :: t :: ts else (c :: t) :: ts

/-- Fuelled worker for String.prototype.split with a multi-character
    separator; the fuel (one more than the string length) always
    suffices because every step consumes at least one character. -/
def jsSplitSeqAux (sep : Str) : Nat → Str → List Str
  | 0, s => [s]
  | Nat.succ fuel, s =>
    match findSub sep s with
    | none => [s]
    | some i => s.take i :: jsSplitSeqAux sep fuel (s.drop (i + sep.length))

/-- String.prototype.split with a (non-empty) multi-character separator. -/
def jsSplitSeq (sep s : Str) : List Str := jsSplitSeqAux sep (s.length + 1) s

/-! ## JavaScript values and errors -/

/-- Dynamically typed JavaScript values, as far as this repository needs
    them.  Numbers are modelled as integers: every number appearing in
    the code or its documented inputs is integral. -/
inductive JSValue where
  | undefV
  | nullv
  | bool (b : Bool)
  | num (n : Int)
  | str (s : Str)
  | arr (elems : List JSValue)
  | obj (fields : List (String × JSValue))

/-- A thrown JavaScript runtime error. -/
inductive JSErr where
  | typeError (msg : String)

/-- Property access `v[k]`: a lookup in an object, undefined on
    anything else that is not null/undefined (callers guard the
    null/undefined case explicitly where the code would throw). -/
def jsGet (v : JSValue) (k : String) : JSValue :=
  match v with
  | .obj fields =>
    match fields.find? (fun kv => kv.fst == k) with
    | some kv => kv.snd
    | none => .undefV
  | _ => .undefV

/-- JavaScript truthiness. -/
def jsTruthy : JSValue → Bool
  | .undefV => false
  | .nullv => false
  | .bool b => b
  | .num n => !(n == 0)
  | .str s => !s.isEmpty
  | .arr _ => true
  | .obj _ => true

/-- `v && typeof v === 'object'`: true exactly for arrays and plain
    objects (null has typeof object but is falsy). -/
def isObjLike : JSValue → Bool
  | .arr _ => true
  | .obj _ => true
  | _ => false

/-- Null or undefined: property access / destructuring throws on these. -/
def isNullish : JSValue → Bool
  | .nullv => true
  | .undefV => true
  | _ => false

/-- `typeof x === 'string'` with the string extracted. -/
def asStr : JSValue → Option Str
  | .str s => some s
  | _ => none

/-- `Array.isArray(x)` with the elements extracted. -/
def asArr : JSValue → Option (List JSValue)
  | .arr xs => some xs
  | _ => none

/-- Decimal digits of a natural number. -/
def natToStr (n : Nat) : Str := Nat.toDigits 10 n

/-- Decimal rendering of an integer. -/
def intToStr (n : Int) : Str :=
  if n < 0 then '-' :: natToStr n.natAbs else natToStr n.natAbs

/-- Fuelled string conversion of a value as done by template literals
    (arrays join their elements with commas, with null/undefined
    becoming empty); the fuel bounds the nesting depth. -/
def jsDispFuel : Nat → JSValue → Str
  | _, .undefV => "undefined".data
  | _, .nullv => "null".data
  | _, .bool b => if b then "true".data else "false".data
  | _, .num n => intToStr n
  | _, .str s => s
  | _, .obj _ => "[object Object]".data
  | 0, .arr _ => []
  | Nat.succ fuel, .arr elems =>
    List.intercalate [','] (elems.map (fun e =>
      match e with
      | .nullv => []
      | .undefV => []
      | x => jsDispFuel fuel x))

mutual
/-- Structural size of a value, used as display fuel. -/
def jsSize : JSValue → Nat
  | .arr elems => jsSizeList elems + 1
  | _ => 1
def jsSizeList : List JSValue → Nat
  | [] => 0
  | x :: xs => jsSize x + jsSizeList xs + 1
end

/-- String conversion of a value in a template literal. -/
def jsDisp (v : JSValue) : Str := jsDispFuel (jsSize v) v

/-! ## WhatsApp message parser (src/06-whatsapp-parser.js) -/

def sepDashL : Str := " - ".data
def colonSpL : Str := ": ".data
def commaSpL : Str := ", ".data
def laughL : Str := "😂".data
def smileyL : Str := ":)".data
def hahaL : Str := "haha".data
def heartL : Str := "❤".data
def loveWordL : Str := "love".data
def pyaarL : Str := "pyaar".data
def funnyL : Str := "funny".data
def loveL : Str := "love".data
def neutralL : Str := "neutral".data

/-- `text.includes("😂") || text.includes(":)") || textLower.includes("haha")`. -/
def funnyB (text : Str) : Bool :=
  strContains laughL text || strContains smileyL text ||
    strContains hahaL (jsToLower text)

/-- `text.includes("❤") || textLower.includes("love") || textLower.includes("pyaar")`. -/
def loveB (text : Str) : Bool :=
  strContains heartL text || strContains loveWordL (jsToLower text) ||
    strContains pyaarL (jsToLower text)

/-- The sentiment if-chain of the parser: funny, else love, else neutral. -/
def sentimentOf (text : Str) : Str :=
  if funnyB text then funnyL else if loveB text then loveL else neutralL

/-- `text.split(" ").filter(word => word.trim() !== '').length`. -/
def jsWordCount (text : Str) : Nat :=
  ((jsSplitP (fun c => c == ' ') text).filter
    (fun w => !(jsTrim w).isEmpty)).length

structure ParsedMessage where
  date : Str
  time : Option Str
  sender : Str
  text : Str
  wordCount : Nat
  sentiment : Str

/-- parseWhatsAppMessage: split one exported chat line on the first
    " - " and the following first ": ", trim the body, count words and
    classify sentiment.  The time field is Option-valued because
    `dateTimePart.split(", ")[1]` is undefined when the segment has no
    ", " divider.  (The JavaScript function also returns null when its
    argument is not a string at all; the embedding takes a string.) -/
def parseWhatsAppMessage (s : Str) : Option ParsedMessage :=
  match findSub sepDashL s with
  | none => none
  | some i =>
    match findSub colonSpL (s.drop (i + 3)) with
    | none => none
    | some j =>
      some { date := (jsSplitSeq commaSpL (s.take i)).getD 0 []
             time := (jsSplitSeq commaSpL (s.take i)).get? 1
             sender := (s.drop (i + 3)).take j
             text := jsTrim ((s.drop (i + 3)).drop (j + 2))
             wordCount := jsWordCount (jsTrim ((s.drop (i + 3)).drop (j + 2)))
             sentiment := sentimentOf (jsTrim ((s.drop (i + 3)).drop (j + 2))) }

example :
    (parseWhatsAppMessage ("25/01/2025, 14:30 - Rahul: Bhai party kab hai? 😂".data)).map
      (fun m => m.wordCount) = some 5 := by decide

example :
    (parseWhatsAppMessage ("25/01/2025, 14:30 - Rahul: Bhai party kab hai? 😂".data)).map
      (fun m => m.sentiment) = some funnyL := by decide

example :
    (parseWhatsAppMessage ("01/12/2024, 09:15 - Priya: I love this song".data)).map
      (fun m => m.sentiment) = some loveL := by decide

/-! ## Form field validator (unnamed source file, validateForm) -/

def kName : String := "name"
def kEmail : String := "email"
def kPhone : String := "phone"
def kAge : String := "age"
def kPincode : String := "pincode"
def kState : String := "state"
def kAgreeTerms : String := "agreeTerms"

def msgName : String := "Name must be 2-50 characters"
def msgEmail : String := "Invalid email format"
def msgPhone : String := "Invalid Indian phone number"
def msgAge : String := "Age must be an integer between 16 and 100"
def msgPincode : String := "Invalid Indian pincode"
def msgState : String := "State is required"
def msgAgree : String := "Must agree to terms"

/-- `/^\d+$/.test(s)`: non-empty and all decimal digits. -/
def digitsRegex (s : Str) : Bool := !s.isEmpty && s.all isDigitChar

/-- parseInt on a string: skip leading whitespace, optional sign, then
    leading decimal digits; none models NaN.  (The hexadecimal 0x prefix
    of parseInt is not modelled; no input here uses it.) -/
def parseIntJS (s : Str) : Option Int :=
  let t := s.dropWhile isWSChar
  match t with
  | '-' :: rest =>
    let d := rest.takeWhile isDigitChar
    if d.isEmpty then none
    else some (-(d.foldl (fun acc c => acc * 10 + (c.toNat - 48)) 0 : Nat))
  | '+' :: rest =>
    let d := rest.takeWhile isDigitChar
    if d.isEmpty then none
    else some ((d.foldl (fun acc c => acc * 10 + (c.toNat - 48)) 0 : Nat))
  | _ =>
    let d := t.takeWhile isDigitChar
    if d.isEmpty then none
    else some ((d.foldl (fun acc c => acc * 10 + (c.toNat - 48)) 0 : Nat))

/-- Rule 1: `typeof name === 'string' && 2 <= name.trim().length <= 50`. -/
def nameFieldOk (x : JSValue) : Bool :=
  match x with
  | .str s => decide (2 ≤ (jsTrim s).length) && decide ((jsTrim s).length ≤ 50)
  | _ => false

/-- Rule 2 as the code implements it: a string whose first "@" exists,
    is its only "@" (indexOf = lastIndexOf), and whose FIRST "."
    has index strictly greater than the "@" index
    (`!(email.indexOf(".") <= email.indexOf("@"))`). -/
def emailFieldOk (x : JSValue) : Bool :=
  match x with
  | .str s =>
    decide (jsIndexOfChar s '@' ≠ -1) &&
    decide (jsIndexOfChar s '@' = jsLastIndexOfChar s '@') &&
    decide (jsIndexOfChar s '@' < jsIndexOfChar s '.')
  | _ => false

/-- Rule 3: string of exactly 10 digits starting with 6, 7, 8 or 9. -/
def phoneFieldOk (x : JSValue) : Bool :=
  match x with
  | .str s =>
    decide (s.length = 10) &&
    (match s with
     | c :: _ => decide ('6' ≤ c) && decide (c ≤ '9')
     | [] => false) &&
    digitsRegex s
  | _ => false

/-- Rule 4: parseInt of the (stringified) field must succeed, the
    stringified field must match /^\d+$/, and the parsed integer must be
    in [16,100].  (`!Number.isInteger(age)` is always false when parseInt
    succeeded, because parseInt yields an integer.) -/
def ageFieldOk (x : JSValue) : Bool :=
  match parseIntJS (jsDisp x) with
  | none => false
  | some a => digitsRegex (jsDisp x) && decide (16 ≤ a) && decide (a ≤ 100)

def zeroL : Str := "0".data

/-- Rule 5: string of exactly 6 digits not starting with "0". -/
def pincodeFieldOk (x : JSValue) : Bool :=
  match x with
  | .str s =>
    decide (s.length = 6) && !(strStarts zeroL s) && digitsRegex s
  | _ => false

/-- Rule 6: `const state = formData.state ?? ""`, then a string that is
    non-empty after trimming. -/
def stateFieldOk (x : JSValue) : Bool :=
  match (match x with | .nullv => JSValue.str [] | .undefV => JSValue.str [] | y => y) with
  | .str s => !(jsTrim s).isEmpty
  | _ => false

structure ValidationResult where
  isValid : Bool
  errors : List (String × String)

/-- validateForm: property accesses on a null or undefined argument
    throw a TypeError; on any other value each of the seven field rules
    is checked independently and one message per failing field is
    accumulated, in source order.  isValid is true exactly when the
    error mapping is empty. -/
def validateForm (v : JSValue) : Except JSErr ValidationResult :=
  match v with
  | .undefV => .error (.typeError "Cannot read properties of undefined")
  | .nullv => .error (.typeError "Cannot read properties of null")
  | _ =>
    let errs : List (String × String) :=
      (if nameFieldOk (jsGet v kName) then [] else [(kName, msgName)]) ++
      (if emailFieldOk (jsGet v kEmail) then [] else [(kEmail, msgEmail)]) ++
      (if phoneFieldOk (jsGet v kPhone) then [] else [(kPhone, msgPhone)]) ++
      (if ageFieldOk (jsGet v kAge) then [] else [(kAge, msgAge)]) ++
      (if pincodeFieldOk (jsGet v kPincode) then [] else [(kPincode, msgPincode)]) ++
      (if stateFieldOk (jsGet v kState) then [] else [(kState, msgState)]) ++
      (if jsTruthy (jsGet v kAgreeTerms) then [] else [(kAgreeTerms, msgAgree)])
    .ok { isValid := errs.isEmpty, errors := errs }

def validFormInput : JSValue :=
  .obj [(kName, .str ("Rahul Sharma".data)), (kEmail, .str ("rahul@gmail.com".data)),
        (kPhone, .str ("9876543210".data)), (kAge, .num 20),
        (kPincode, .str ("400001".data)), (kState, .str ("Maharashtra".data)),
        (kAgreeTerms, .bool true)]

example : validateForm validFormInput = .ok { isValid := true, errors := [] } := by rfl

def badFormInput : JSValue :=
  .obj [(kName, .str []), (kEmail, .str ("bad-email".data)),
        (kPhone, .str ("12345".data)), (kAge, .num 10),
        (kPincode, .str ("0123".data)), (kState, .nullv),
        (kAgreeTerms, .bool false)]

example :
    (validateForm badFormInput).map (fun r => (r.isValid, r.errors.length)) =
      .ok (false, 7) := by rfl

/-! ## Mumbai local pass formatter (src/05-mumbai-local-pass.js) -/

def kFrom : String := "from"
def kTo : String := "to"
def kClassType : String := "classType"

def invalidPassL : Str := "INVALID PASS".data
def firstCL : Str := "first".data
def secondCL : Str := "second".data
def passTitleL : Str := "MUMBAI LOCAL PASS".data
def passSepL : Str := "---".data
def nameTagL : Str := "Name: ".data
def fromTagL : Str := "From: ".data
def toTagL : Str := "To: ".data
def classTagL : Str := "Class: ".data
def passIdTagL : Str := "Pass ID: ".data

/-- String.prototype.charAt(0): a one-character string, or empty. -/
def jsCharAt0 : Str → Str
  | [] => []
  | c :: _ => [c]

/-- `s.charAt(0).toUpperCase() + s.slice(1).toLowerCase()` (Title Case). -/
def titleCase (s : Str) : Str :=
  jsToUpper (jsCharAt0 s) ++ jsToLower (s.drop 1)

/-- generateLocalPass: reject anything that is not a non-null object,
    any missing / non-string / whitespace-only field among name, from,
    to, classType, and any classType not case-insensitively first or
    second; otherwise render the fixed newline-joined display whose last
    line carries the derived pass identifier. -/
def generateLocalPass (v : JSValue) : Str :=
  if isObjLike v = false then invalidPassL
  else
    match jsGet v kName, jsGet v kFrom, jsGet v kTo, jsGet v kClassType with
    | .str nm, .str frm, .str dst, .str ct =>
      if (jsTrim nm).isEmpty || (jsTrim frm).isEmpty ||
          (jsTrim dst).isEmpty || (jsTrim ct).isEmpty then invalidPassL
      else
        let ctLower := jsToLower ct
        if ctLower ≠ firstCL ∧ ctLower ≠ secondCL then invalidPassL
        else
          let passId := jsToUpper (jsCharAt0 ctLower) ++
            (jsToUpper frm).take 3 ++ (jsToUpper dst).take 3
          passTitleL ++ '\n' ::
            (passSepL ++ '\n' ::
              ((nameTagL ++ jsToUpper nm) ++ '\n' ::
                ((fromTagL ++ titleCase frm) ++ '\n' ::
                  ((toTagL ++ titleCase dst) ++ '\n' ::
                    ((classTagL ++ jsToUpper ctLower) ++ '\n' ::
                      (passIdTagL ++ passId))))))
    | _, _, _, _ => invalidPassL

def rahulPassInput : JSValue :=
  .obj [(kName, .str ("rahul sharma".data)), (kFrom, .str ("dadar".data)),
        (kTo, .str ("andheri".data)), (kClassType, .str ("first".data))]

example :
    generateLocalPass rahulPassInput =
      ("MUMBAI LOCAL PASS\n---\nName: RAHUL SHARMA\nFrom: Dadar\nTo: Andheri\nClass: FIRST\nPass ID: FDADAND".data) := by
  rfl

example : generateLocalPass .nullv = invalidPassL := by rfl

/-! ## Railway PNR status processor (src/12-railway-pnr-system.js) -/

def kPnr : String := "pnr"
def kTrain : String := "train"
def kClassBooked : String := "classBooked"
def kPassengers : String := "passengers"
def kNumber : String := "number"
def kAgeF : String := "age"
def kGender : String := "gender"
def kBooking : String := "booking"
def kCurrent : String := "current"

def bL : Str := "B".data
def sL : Str := "S".data
def wlL : Str := "WL".data
def canL : Str := "CAN".data
def racPreL : Str := "RAC".data
def confirmedL : Str := "CONFIRMED".data
def waitingL : Str := "WAITING".data
def cancelledL : Str := "CANCELLED".data
def racL : Str := "RAC".data

/-- The passenger status if-chain over the `current` field: starts with
    B or S, else starts with WL, else equals CAN, else starts with RAC,
    else the empty label. -/
def labelOf (cur : Str) : Str :=
  if strStarts bL cur || strStarts sL cur then confirmedL
  else if strStarts wlL cur then waitingL
  else if cur = canL then cancelledL
  else if strStarts racPreL cur then racL
  else []

structure ProcessedPassenger where
  formattedName : Str
  bookingStatus : JSValue
  currentStatus : JSValue
  statusLabel : Str
  isConfirmed : Bool

/-- `name.padEnd(20)`. -/
def padEnd20 (s : Str) : Str := s ++ List.replicate (20 - s.length) ' '

/-- One step of `passengers.map(({name, age, gender, booking, current}) => ...)`:
    destructuring a null/undefined element throws; `current.startsWith`
    throws when current is not a string (evaluated first, while
    computing statusLabel); `name.padEnd` throws when name is not a
    string (evaluated later, inside the result object literal). -/
def processPassenger (q : JSValue) : Except JSErr ProcessedPassenger :=
  if isNullish q then .error (.typeError "cannot destructure passenger")
  else
    match asStr (jsGet q kCurrent) with
    | some cur =>
      match asStr (jsGet q kName) with
      | some nm =>
        .ok { formattedName := padEnd20 nm ++ '(' ::
                (jsDisp (jsGet q kAgeF) ++ '/' :: (jsDisp (jsGet q kGender) ++ [')']))
              bookingStatus := jsGet q kBooking
              currentStatus := .str cur
              statusLabel := labelOf cur
              isConfirmed := decide (labelOf cur = confirmedL) }
      | none => .error (.typeError "name.padEnd is not a function")
    | none => .error (.typeError "current.startsWith is not a function")

/-- `passengers.map` with propagation of a thrown error. -/
def mapPassengers : List JSValue → Except JSErr (List ProcessedPassenger)
  | [] => .ok []
  | q :: qs =>
    match processPassenger q with
    | .error e => .error e
    | .ok p =>
      match mapPassengers qs with
      | .error e => .error e
      | .ok ps => .ok (p :: ps)

structure PNRSummary where
  totalPassengers : Nat
  confirmed : Nat
  waiting : Nat
  cancelled : Nat
  rac : Nat
  allConfirmed : Bool
  anyWaiting : Bool

structure PNRReport where
  pnrFormatted : Str
  trainInfo : Str
  passengers : List ProcessedPassenger
  summary : PNRSummary
  chartPrepared : Bool

/-- `processed.filter(p => p.statusLabel === lab).length`. -/
def cntLabel (lab : Str) (pp : List ProcessedPassenger) : Nat :=
  (pp.filter (fun p => decide (p.statusLabel = lab))).length

def dashL : Str := "-".data
def trainTagL : Str := "Train: ".data
def trainSepL : Str := " - ".data
def barL : Str := " | ".data
def arrowL : Str := " → ".data
def classBarL : Str := " | Class: ".data

/-- `/^\d{10}$/.test(pnr)`. -/
def pnr10 (s : Str) : Bool := decide (s.length = 10) && s.all isDigitChar

/-- The report object built once validation passed and every passenger
    was processed: 3-3-4 formatted pnr, the train info template literal,
    the processed passengers, and the aggregate summary.  chartPrepared
    repeats the allConfirmed expression verbatim, as the source does. -/
def buildReport (pnr : Str) (train classBooked : JSValue)
    (pp : List ProcessedPassenger) : PNRReport :=
  { pnrFormatted := pnr.take 3 ++ dashL ++ ((pnr.drop 3).take 3) ++ dashL ++ pnr.drop 6
    trainInfo := trainTagL ++ jsDisp (jsGet train kNumber) ++ trainSepL ++
      jsDisp (jsGet train kName) ++ barL ++ jsDisp (jsGet train kFrom) ++
      arrowL ++ jsDisp (jsGet train kTo) ++ classBarL ++ jsDisp classBooked
    passengers := pp
    summary :=
      { totalPassengers := pp.length
        confirmed := cntLabel confirmedL pp
        waiting := cntLabel waitingL pp
        cancelled := cntLabel cancelledL pp
        rac := cntLabel racL pp
        allConfirmed := pp.all (fun p =>
          decide (p.statusLabel = confirmedL) || decide (p.statusLabel = cancelledL))
        anyWaiting := pp.any (fun p => decide (p.statusLabel = waitingL)) }
    chartPrepared := pp.all (fun p =>
      decide (p.statusLabel = confirmedL) || decide (p.statusLabel = cancelledL)) }

/-- processRailwayPNR: return none (JavaScript null) unless the input is
    a truthy object with a 10-digit string pnr, a truthy object train
    and a non-empty passengers array; then process each passenger (which
    may throw) and assemble the report. -/
def processRailwayPNR (v : JSValue) : Except JSErr (Option PNRReport) :=
  if isObjLike v = false then .ok none
  else
    match asStr (jsGet v kPnr) with
    | some pnr =>
      if pnr10 pnr = false then .ok none
      else if isObjLike (jsGet v kTrain) = false then .ok none
      else
        match asArr (jsGet v kPassengers) with
        | some ps =>
          if ps.isEmpty then .ok none
          else
            match mapPassengers ps with
            | .error e => .error e
            | .ok pp =>
              .ok (some (buildReport pnr (jsGet v kTrain) (jsGet v kClassBooked) pp))
        | none => .ok none
    | none => .ok none

def samplePNRInput : JSValue :=
  .obj [(kPnr, .str ("1234567890".data)),
        (kTrain, .obj [(kNumber, .str ("12301".data)), (kName, .str ("Rajdhani Express".data)),
                       (kFrom, .str ("NDLS".data)), (kTo, .str ("HWH".data))]),
        (kClassBooked, .str ("3A".data)),
        (kPassengers, .arr [.obj [(kName, .str ("Rahul".data)), (kAgeF, .num 28),
                                  (kGender, .str ("M".data)), (kBooking, .str ("B1".data)),
                                  (kCurrent, .str ("B1".data))]])]

example :
    (processRailwayPNR samplePNRInput).map (fun o => o.map (fun r =>
      (r.pnrFormatted, r.summary.allConfirmed, r.chartPrepared, r.summary.confirmed))) =
    .ok (some (("123-456-7890".data), true, true, 1)) := by rfl

example :
    (processRailwayPNR samplePNRInput).map (fun o => o.map (fun r => r.trainInfo)) =
    .ok (some ("Train: 12301 - Rajdhani Express | NDLS → HWH | Class: 3A".data)) := by rfl

/-! ## Helper lemmas -/

lemma jsSplitSeq_of_none (sep s : Str) (h : findSub sep s = none) :
    jsSplitSeq sep s = [s] := by
  simp [jsSplitSeq, jsSplitSeqAux, h]

lemma parse_fields_eq (s : Str) (m : ParsedMessage)
    (h : parseWhatsAppMessage s = some m) :
    m.wordCount = jsWordCount m.text ∧ m.sentiment = sentimentOf m.text := by
  unfold parseWhatsAppMessage at h
  split at h
  · exact Option.noConfusion h
  · split at h
    · exact Option.noConfusion h
    · injection h with h
      subst h
      exact ⟨rfl, rfl⟩

/-- C10: the ", " date/time divider is not required: when the input has
    a first " - " at index i, a ": " after it, and the segment before
    " - " has no ", ", parsing succeeds with the whole segment as the
    date and an absent (undefined) time. -/
theorem whatsapp_missing_time (s : Str) (i j : Nat)
    (hi : findSub sepDashL s = some i)
    (hj : findSub colonSpL (s.drop (i + 3)) = some j)
    (hno : findSub commaSpL (s.take i) = none) :
    ∃ m, parseWhatsAppMessage s = some m ∧ m.date = s.take i ∧ m.time = none := by
  have hs : jsSplitSeq commaSpL (s.take i) = [s.take i] := jsSplitSeq_of_none _ _ hno
  simp only [parseWhatsAppMessage, hi, hj]
  exact ⟨_, rfl, by simp [hs], by simp [hs]⟩

def c10line : Str := "abc - Bob: hi".data

theorem whatsapp_missing_time_witness :
    ∃ m, parseWhatsAppMessage c10line = some m ∧
      m.date = c10line.take 3 ∧ m.time = none :=
  whatsapp_missing_time c10line 3 3 (by decide) (by decide) (by decide)

/-- C6: the parsed sentiment is funny when any funny marker is present
    in the body, else love when any love marker is present, else
    neutral; funny strictly dominates love. -/
theorem sentiment_priority (s : Str) (m : ParsedMessage)
    (h : parseWhatsAppMessage s = some m) :
    (funnyB m.text = true → m.sentiment = funnyL) ∧
    (funnyB m.text = false → loveB m.text = true → m.sentiment = loveL) ∧
    (funnyB m.text = false → loveB m.text = false → m.sentiment = neutralL) := by
  have hs := (parse_fields_eq s m h).2
  refine ⟨fun hf => ?_, fun hf hl => ?_, fun hf hl => ?_⟩
  · rw [hs]; simp [sentimentOf, hf]
  · rw [hs]; simp [sentimentOf, hf, hl]
  · rw [hs]; simp [sentimentOf, hf, hl]

def c6line : Str := "1/1, 2:2 - A: haha love it".data

def c6msg : ParsedMessage :=
  { date := "1/1".data, time := some ("2:2".data), sender := "A".data,
    text := "haha love it".data, wordCount := 3, sentiment := funnyL }

theorem sentiment_priority_witness :
    parseWhatsAppMessage c6line = some c6msg ∧ funnyB c6msg.text = true ∧
      loveB c6msg.text = true ∧ c6msg.sentiment = funnyL :=
  ⟨by rfl, by decide, by decide,
    (sentiment_priority c6line c6msg (by rfl)).1 (by decide)⟩

/-! ## Word-count lemmas (C2) -/

lemma jsSplitP_ne_nil (p : Char → Bool) (s : Str) : jsSplitP p s ≠ [] := by
  cases s with
  | nil => simp [jsSplitP]
  | cons c rest =>
    simp only [jsSplitP]
    cases jsSplitP p rest with
    | nil => simp
    | cons t ts => by_cases hc : p c <;> simp [hc]

lemma jsSplitP_mem (p : Char → Bool) :
    ∀ (s w : Str), w ∈ jsSplitP p s → ∀ c ∈ w, c ∈ s ∧ p c = false := by
  intro s
  induction s with
  | nil =>
    intro w hw c hc
    simp [jsSplitP] at hw
    subst hw
    simp at hc
  | cons a rest ih =>
    intro w hw c hc
    simp only [jsSplitP] at hw
    rcases hsp : jsSplitP p rest with _ | ⟨t, ts⟩
    · exact absurd hsp (jsSplitP_ne_nil p rest)
    · rw [hsp] at hw
      by_cases ha : p a
      · simp only [ha, if_true] at hw
        rcases List.mem_cons.mp hw with hw | hw
        · subst hw; simp at hc
        · have hmem : w ∈ jsSplitP p rest := by rw [hsp]; exact hw
          obtain ⟨h1, h2⟩ := ih w hmem c hc
          exact ⟨List.mem_cons_of_mem _ h1, h2⟩
      · simp only [ha, if_false] at hw
        rcases List.mem_cons.mp hw with hw | hw
        · subst hw
          rcases List.mem_cons.mp hc with hc | hc
          · subst hc
            exact ⟨List.mem_cons_self _ _, by simpa using ha⟩
          · have hmem : t ∈ jsSplitP p rest := by
              rw [hsp]; exact List.mem_cons_self _ _
            obtain ⟨h1, h2⟩ := ih t hmem c hc
            exact ⟨List.mem_cons_of_mem _ h1, h2⟩
        · have hmem : w ∈ jsSplitP p rest := by
            rw [hsp]; exact List.mem_cons_of_mem _ hw
          obtain ⟨h1, h2⟩ := ih w hmem c hc
          exact ⟨List.mem_cons_of_mem _ h1, h2⟩

lemma jsSplitP_congr (p q : Char → Bool) :
    ∀ (s : Str), (∀ c ∈ s, p c = q c) → jsSplitP p s = jsSplitP q s := by
  intro s
  induction s with
  | nil => intro _; rfl
  | cons a rest ih =>
    intro hpq
    have hrest : jsSplitP p rest = jsSplitP q rest :=
      ih (fun c hc => hpq c (List.mem_cons_of_mem _ hc))
    have ha : p a = q a := hpq a (List.mem_cons_self _ _)
    simp only [jsSplitP, hrest, ha]

lemma jsTrim_of_no_ws (w : Str) (h : ∀ c ∈ w, isWSChar c = false) :
    jsTrim w = w := by
  unfold jsTrim
  have h1 : w.dropWhile isWSChar = w := by
    cases w with
    | nil => rfl
    | cons a rest => simp [List.dropWhile, h a (List.mem_cons_self _ _)]
  rw [h1]
  have h2 : w.reverse.dropWhile isWSChar = w.reverse := by
    cases hrev : w.reverse with
    | nil => rfl
    | cons a rest =>
      have ha : a ∈ w := by
        rw [← List.mem_reverse, hrev]
        exact List.mem_cons_self _ _
      simp [List.dropWhile, h a ha]
  rw [h2, List.reverse_reverse]

/-- The number of non-empty whitespace-delimited tokens of a body, as
    the specification words the word count: split at whitespace
    characters and filter out empty tokens. -/
def wsWordCount (t : Str) : Nat :=
  ((jsSplitP isWSChar t).filter (fun w => !w.isEmpty)).length

lemma jsWordCount_eq_ws (t : Str)
    (hsp : ∀ c ∈ t, isWSChar c = true → c = ' ') :
    jsWordCount t = wsWordCount t := by
  have hpq : ∀ c ∈ t, (c == ' ') = isWSChar c := by
    intro c hc
    by_cases hce : c = ' '
    · subst hce; rfl
    · have h1 : (c == ' ') = false := by simp [hce]
      have h2 : isWSChar c = false := by
        by_cases hw : isWSChar c
        · exact absurd (hsp c hc hw) hce
        · simpa using hw
      rw [h1, h2]
  unfold jsWordCount wsWordCount
  rw [jsSplitP_congr _ _ t hpq]
  congr 1
  apply List.filter_congr
  intro w hw
  have hwchars : ∀ c ∈ w, isWSChar c = false :=
    fun c hc => (jsSplitP_mem _ t w hw c hc).2
  rw [jsTrim_of_no_ws w hwchars]

/-- C2 (amended): for every valid line whose trimmed body contains no
    whitespace characters other than plain spaces, the wordCount equals
    the number of non-empty whitespace-delimited tokens of the trimmed
    body.  (The code splits only at spaces, so a tab directly between
    letters does not separate words.) -/
theorem wordcount_space_delimited (s : Str) (m : ParsedMessage)
    (h : parseWhatsAppMessage s = some m)
    (hsp : ∀ c ∈ m.text, isWSChar c = true → c = ' ') :
    m.wordCount = wsWordCount m.text := by
  rw [(parse_fields_eq s m h).1]
  exact jsWordCount_eq_ws m.text hsp

def c2line : Str := "1/1, 2 - A: hi  there".data

def c2msg : ParsedMessage :=
  { date := "1/1".data, time := some ("2".data), sender := "A".data,
    text := "hi  there".data, wordCount := 2, sentiment := neutralL }

theorem wordcount_space_delimited_witness :
    parseWhatsAppMessage c2line = some c2msg ∧
      c2msg.wordCount = wsWordCount c2msg.text :=
  ⟨by rfl, wordcount_space_delimited c2line c2msg (by rfl) (by decide)⟩

def c2tabLine : Str := "1/1, 2 - A: hi\tbro".data

/-- C2 counterexample: the line "1/1, 2 - A: hi(tab)bro" is a valid
    WhatsApp-style line whose trimmed body "hi(tab)bro" has two
    non-empty whitespace-delimited tokens, yet the parser reports
    wordCount 1, because the code splits at spaces only. -/
theorem wordcount_tab_counterexample :
    (parseWhatsAppMessage c2tabLine).map (fun m => m.text) = some ("hi\tbro".data) ∧
    (parseWhatsAppMessage c2tabLine).map (fun m => m.wordCount) = some 1 ∧
    (parseWhatsAppMessage c2tabLine).map (fun m => wsWordCount m.text) = some 2 ∧
    ¬ (parseWhatsAppMessage c2tabLine).map (fun m => m.wordCount) =
      (parseWhatsAppMessage c2tabLine).map (fun m => wsWordCount m.text) :=
  ⟨by rfl, by rfl, by rfl, by decide⟩

/-! ## Pass formatter lemmas (C7) -/

lemma jsSplitP_single (p : Char → Bool) :
    ∀ (A : Str), (∀ x ∈ A, p x = false) → jsSplitP p A = [A] := by
  intro A
  induction A with
  | nil => intro _; rfl
  | cons a rest ih =>
    intro h
    have hrest := ih (fun x hx => h x (List.mem_cons_of_mem _ hx))
    have ha : p a = false := h a (List.mem_cons_self _ _)
    simp only [jsSplitP, hrest, ha]
    simp

lemma jsSplitP_append (p : Char → Bool) (c : Char) (hc : p c = true) :
    ∀ (A B : Str), (∀ x ∈ A, p x = false) →
      jsSplitP p (A ++ c :: B) = A :: jsSplitP p B := by
  intro A
  induction A with
  | nil =>
    intro B _
    simp only [List.nil_append, jsSplitP]
    cases hB : jsSplitP p B with
    | nil => exact absurd hB (jsSplitP_ne_nil p B)
    | cons t ts => simp [hc]
  | cons a A' ih =>
    intro B h
    have ha : p a = false := h a (List.mem_cons_self _ _)
    have hA' := ih B (fun x hx => h x (List.mem_cons_of_mem _ hx))
    simp only [List.cons_append, jsSplitP, ha, List.append_eq]
    rw [hA']
    simp

lemma jsToUpperChar_ne_nl (c : Char) (h : c ≠ '\n') : jsToUpperChar c ≠ '\n' := by
  unfold jsToUpperChar
  cases hf : ucPairs.find? (fun q => q.fst == c) with
  | none => exact h
  | some q =>
    have hq : q ∈ ucPairs := List.mem_of_find?_eq_some hf
    have hall : ∀ r ∈ ucPairs, r.snd ≠ '\n' := by decide
    exact hall q hq

lemma jsToLowerChar_ne_nl (c : Char) (h : c ≠ '\n') : jsToLowerChar c ≠ '\n' := by
  unfold jsToLowerChar
  cases hf : ucPairs.find? (fun q => q.snd == c) with
  | none => exact h
  | some q =>
    have hq : q ∈ ucPairs := List.mem_of_find?_eq_some hf
    have hall : ∀ r ∈ ucPairs, r.fst ≠ '\n' := by decide
    exact hall q hq

lemma jsToUpper_nl_free (s : Str) (hs : ∀ c ∈ s, c ≠ '\n') :
    ∀ c ∈ jsToUpper s, c ≠ '\n' := by
  intro c hc
  simp only [jsToUpper, List.mem_map] at hc
  obtain ⟨x, hx, hcx⟩ := hc
  rw [← hcx]
  exact jsToUpperChar_ne_nl x (hs x hx)

lemma jsToLower_nl_free (s : Str) (hs : ∀ c ∈ s, c ≠ '\n') :
    ∀ c ∈ jsToLower s, c ≠ '\n' := by
  intro c hc
  simp only [jsToLower, List.mem_map] at hc
  obtain ⟨x, hx, hcx⟩ := hc
  rw [← hcx]
  exact jsToLowerChar_ne_nl x (hs x hx)

lemma jsCharAt0_sub (s : Str) : ∀ c ∈ jsCharAt0 s, c ∈ s := by
  intro c hc
  cases s with
  | nil => simp [jsCharAt0] at hc
  | cons a rest =>
    simp [jsCharAt0] at hc
    subst hc
    exact List.mem_cons_self _ _

lemma titleCase_nl_free (s : Str) (hs : ∀ c ∈ s, c ≠ '\n') :
    ∀ c ∈ titleCase s, c ≠ '\n' := by
  intro c hc
  rcases List.mem_append.mp hc with hc | hc
  · exact jsToUpper_nl_free (jsCharAt0 s)
      (fun x hx => hs x (jsCharAt0_sub s x hx)) c hc
  · exact jsToLower_nl_free (s.drop 1)
      (fun x hx => hs x (List.drop_subset _ _ hx)) c hc

lemma append_nl_free (A B : Str) (hA : ∀ c ∈ A, c ≠ '\n')
    (hB : ∀ c ∈ B, c ≠ '\n') : ∀ c ∈ A ++ B, c ≠ '\n' := by
  intro c hc
  rcases List.mem_append.mp hc with hc | hc
  · exact hA c hc
  · exact hB c hc

lemma nl_pred_false (s : Str) (h : ∀ c ∈ s, c ≠ '\n') :
    ∀ c ∈ s, (c == '\n') = false :=
  fun c hc => beq_eq_false_iff_ne.mpr (h c hc)

/-- C7 (amended): for every passenger record accepted by
    generateLocalPass whose name, from and to contain no newline
    character, the output splits at newlines into exactly 7 lines, the
    last being "Pass ID: " followed by the uppercase first letter of the
    lowercased classType and the first 3 characters of from and of to,
    uppercased; and generateLocalPass(null) is the INVALID PASS
    sentinel.  (Without the no-newline condition a newline inside an
    accepted field adds display lines, so the output is not 7 lines.) -/
theorem pass_format (nm frm dst ct : Str)
    (hnm : (jsTrim nm).isEmpty = false)
    (hfrm : (jsTrim frm).isEmpty = false)
    (hdst : (jsTrim dst).isEmpty = false)
    (hct : (jsTrim ct).isEmpty = false)
    (hclass : jsToLower ct = firstCL ∨ jsToLower ct = secondCL)
    (hnl1 : ∀ c ∈ nm, c ≠ '\n') (hnl2 : ∀ c ∈ frm, c ≠ '\n')
    (hnl3 : ∀ c ∈ dst, c ≠ '\n') :
    (jsSplitP (fun c => c == '\n')
        (generateLocalPass (.obj [(kName, .str nm), (kFrom, .str frm),
          (kTo, .str dst), (kClassType, .str ct)]))).length = 7 ∧
    (jsSplitP (fun c => c == '\n')
        (generateLocalPass (.obj [(kName, .str nm), (kFrom, .str frm),
          (kTo, .str dst), (kClassType, .str ct)]))).getLast? =
      some (passIdTagL ++ (jsToUpper (jsCharAt0 (jsToLower ct)) ++
        (jsToUpper frm).take 3 ++ (jsToUpper dst).take 3)) ∧
    generateLocalPass .nullv = invalidPassL := by
  have step : generateLocalPass (.obj [(kName, .str nm), (kFrom, .str frm),
      (kTo, .str dst), (kClassType, .str ct)]) =
      (if ((jsTrim nm).isEmpty || (jsTrim frm).isEmpty ||
            (jsTrim dst).isEmpty || (jsTrim ct).isEmpty) then invalidPassL
       else if jsToLower ct ≠ firstCL ∧ jsToLower ct ≠ secondCL then invalidPassL
       else passTitleL ++ '\n' ::
         (passSepL ++ '\n' ::
           ((nameTagL ++ jsToUpper nm) ++ '\n' ::
             ((fromTagL ++ titleCase frm) ++ '\n' ::
               ((toTagL ++ titleCase dst) ++ '\n' ::
                 ((classTagL ++ jsToUpper (jsToLower ct)) ++ '\n' ::
                   (passIdTagL ++ (jsToUpper (jsCharAt0 (jsToLower ct)) ++
                     (jsToUpper frm).take 3 ++ (jsToUpper dst).take 3)))))))) := rfl
  rw [step, if_neg (by simp [hnm, hfrm, hdst, hct]),
    if_neg (by rcases hclass with h | h <;> simp [h])]
  have hl1 : ∀ c ∈ passTitleL, c ≠ '\n' := by decide
  have hl2 : ∀ c ∈ passSepL, c ≠ '\n' := by decide
  have hl3 : ∀ c ∈ nameTagL ++ jsToUpper nm, c ≠ '\n' :=
    append_nl_free _ _ (by decide) (jsToUpper_nl_free nm hnl1)
  have hl4 : ∀ c ∈ fromTagL ++ titleCase frm, c ≠ '\n' :=
    append_nl_free _ _ (by decide) (titleCase_nl_free frm hnl2)
  have hl5 : ∀ c ∈ toTagL ++ titleCase dst, c ≠ '\n' :=
    append_nl_free _ _ (by decide) (titleCase_nl_free dst hnl3)
  have hl6 : ∀ c ∈ classTagL ++ jsToUpper (jsToLower ct), c ≠ '\n' := by
    rcases hclass with h | h <;> rw [h] <;> decide
  have hl7 : ∀ c ∈ passIdTagL ++ (jsToUpper (jsCharAt0 (jsToLower ct)) ++
      (jsToUpper frm).take 3 ++ (jsToUpper dst).take 3), c ≠ '\n' := by
    refine append_nl_free _ _ (by decide) ?_
    refine append_nl_free _ _ (append_nl_free _ _ ?_ ?_) ?_
    · rcases hclass with h | h <;> rw [h] <;> decide
    · exact fun c hc =>
        jsToUpper_nl_free frm hnl2 c (List.take_subset _ _ hc)
    · exact fun c hc =>
        jsToUpper_nl_free dst hnl3 c (List.take_subset _ _ hc)
  rw [jsSplitP_append _ _ rfl _ _ (nl_pred_false _ hl1),
      jsSplitP_append _ _ rfl _ _ (nl_pred_false _ hl2),
      jsSplitP_append _ _ rfl _ _ (nl_pred_false _ hl3),
      jsSplitP_append _ _ rfl _ _ (nl_pred_false _ hl4),
      jsSplitP_append _ _ rfl _ _ (nl_pred_false _ hl5),
      jsSplitP_append _ _ rfl _ _ (nl_pred_false _ hl6),
      jsSplitP_single _ _ (nl_pred_false _ hl7)]
  exact ⟨rfl, rfl, rfl⟩

theorem pass_format_witness :
    (jsSplitP (fun c => c == '\n') (generateLocalPass rahulPassInput)).length = 7 ∧
    (jsSplitP (fun c => c == '\n') (generateLocalPass rahulPassInput)).getLast? =
      some ("Pass ID: FDADAND".data) := by
  have h := pass_format ("rahul sharma".data) ("dadar".data) ("andheri".data)
    ("first".data) (by decide) (by decide) (by decide) (by decide)
    (Or.inl (by decide)) (by decide) (by decide) (by decide)
  exact ⟨h.1, h.2.1⟩

def c7badInput : JSValue :=
  .obj [(kName, .str ("a\nb".data)), (kFrom, .str ("dadar".data)),
        (kTo, .str ("andheri".data)), (kClassType, .str ("first".data))]

/-- C7 counterexample: a record accepted by generateLocalPass (all four
    fields non-empty strings, classType "first") whose name contains a
    newline: the output is not the invalid sentinel, yet splits into 8
    lines at newlines, so the output is not a 7-line string. -/
theorem pass_newline_counterexample :
    generateLocalPass c7badInput ≠ invalidPassL ∧
    (jsSplitP (fun c => c == '\n') (generateLocalPass c7badInput)).length = 8 :=
  ⟨by decide, by rfl⟩

/-! ## Form validator theorems (C9, C1) -/

/-- C9: validateForm throws a TypeError on null and on undefined, but on
    every object input — even with all seven fields absent — it returns
    a ValidationResult without throwing; the empty object collects
    exactly 7 field errors. -/
theorem validateForm_totality :
    (∃ e, validateForm JSValue.nullv = .error e) ∧
    (∃ e, validateForm JSValue.undefV = .error e) ∧
    (∀ fields, ∃ r, validateForm (JSValue.obj fields) = .ok r) ∧
    (∃ r, validateForm (JSValue.obj []) = .ok r ∧
      r.isValid = false ∧ r.errors.length = 7) := by
  refine ⟨⟨_, rfl⟩, ⟨_, rfl⟩, fun fields => ⟨_, rfl⟩, ⟨_, rfl, rfl, rfl⟩⟩

theorem validateForm_totality_witness :
    ∃ r, validateForm (JSValue.obj [(kAge, JSValue.num 20)]) = .ok r :=
  validateForm_totality.2.2.1 [(kAge, JSValue.num 20)]

/-- An email predicate worded exactly as the specification's rule for
    C1: a string containing exactly one "@" and at least one "."
    somewhere after the "@" position. -/
def specEmailOk (s : Str) : Prop :=
  s.count '@' = 1 ∧ '.' ∈ s.drop (s.findIdx (fun c => c == '@') + 1)

def c1email : Str := "a.b@c.d".data

def c1FormInput : JSValue :=
  .obj [(kName, .str ("Rahul Sharma".data)), (kEmail, .str c1email),
        (kPhone, .str ("9876543210".data)), (kAge, .num 20),
        (kPincode, .str ("400001".data)), (kState, .str ("Goa".data)),
        (kAgreeTerms, .bool true)]

/-- C1: the email "a.b@c.d" satisfies the specified rule (exactly one
    "@", at least one "." after it), yet the code's emailFieldOk rejects
    it — the code compares the index of the FIRST "." with the "@"
    index — so validateForm records an email error for a form that is
    valid under the specified rule. -/
theorem email_first_dot_code_bug :
    specEmailOk c1email ∧
    emailFieldOk (.str c1email) = false ∧
    validateForm c1FormInput =
      .ok { isValid := false, errors := [(kEmail, msgEmail)] } :=
  ⟨⟨by decide, by decide⟩, by rfl, by rfl⟩

/-! ## PNR processor lemmas -/

lemma process_ok_inv (v : JSValue) (r : PNRReport)
    (h : processRailwayPNR v = .ok (some r)) :
    ∃ pnr ps pp, asStr (jsGet v kPnr) = some pnr ∧ pnr10 pnr = true ∧
      isObjLike (jsGet v kTrain) = true ∧
      asArr (jsGet v kPassengers) = some ps ∧ ps.isEmpty = false ∧
      mapPassengers ps = .ok pp ∧
      r = buildReport pnr (jsGet v kTrain) (jsGet v kClassBooked) pp := by
  unfold processRailwayPNR at h
  by_cases hobj : isObjLike v = false
  · rw [if_pos hobj] at h; simp at h
  · rw [if_neg hobj] at h
    rcases hpnr : asStr (jsGet v kPnr) with _ | pnr <;> simp only [hpnr] at h
    · simp at h
    · by_cases hp10 : pnr10 pnr = false
      · rw [if_pos hp10] at h; simp at h
      · rw [if_neg hp10] at h
        by_cases htr : isObjLike (jsGet v kTrain) = false
        · rw [if_pos htr] at h; simp at h
        · rw [if_neg htr] at h
          rcases hps : asArr (jsGet v kPassengers) with _ | ps <;>
            simp only [hps] at h
          · simp at h
          · by_cases hemp : ps.isEmpty
            · rw [if_pos hemp] at h; simp at h
            · rw [if_neg hemp] at h
              rcases hpp : mapPassengers ps with e | pp <;> simp only [hpp] at h
              · simp at h
              · refine ⟨pnr, ps, pp, rfl, ?_, ?_, rfl, ?_, hpp, ?_⟩
                · exact (Bool.not_eq_false _).mp hp10
                · exact (Bool.not_eq_false _).mp htr
                · exact (Bool.not_eq_true _).mp hemp
                · exact (Option.some.inj (Except.ok.inj h)).symm

lemma mapPassengers_length : ∀ (l : List JSValue) (l' : List ProcessedPassenger),
    mapPassengers l = .ok l' → l'.length = l.length := by
  intro l
  induction l with
  | nil =>
    intro l' h
    simp only [mapPassengers] at h
    rw [← Except.ok.inj h]
    rfl
  | cons q qs ih =>
    intro l' h
    simp only [mapPassengers] at h
    rcases hq : processPassenger q with e | p <;> simp only [hq] at h
    · simp at h
    · rcases hqs : mapPassengers qs with e | ps <;> simp only [hqs] at h
      · simp at h
      · rw [← Except.ok.inj h]
        simp [ih ps hqs]

lemma mapPassengers_get : ∀ (l : List JSValue) (l' : List ProcessedPassenger),
    mapPassengers l = .ok l' →
    ∀ (i : Nat) (hi : i < l.length) (hi' : i < l'.length),
      processPassenger (l.get ⟨i, hi⟩) = .ok (l'.get ⟨i, hi'⟩) := by
  intro l
  induction l with
  | nil =>
    intro l' h i hi
    exact absurd hi (by simp)
  | cons q qs ih =>
    intro l' h i hi hi'
    simp only [mapPassengers] at h
    rcases hq : processPassenger q with e | p <;> simp only [hq] at h
    · simp at h
    · rcases hqs : mapPassengers qs with e | ps <;> simp only [hqs] at h
      · simp at h
      · have h2 := Except.ok.inj h
        subst h2
        cases i with
        | zero => exact hq
        | succ n =>
          exact ih ps hqs n (Nat.lt_of_succ_lt_succ hi) (Nat.lt_of_succ_lt_succ hi')

lemma processPassenger_ok_label (q : JSValue) (p : ProcessedPassenger) (cur : Str)
    (hc : jsGet q kCurrent = .str cur) (h : processPassenger q = .ok p) :
    p.statusLabel = labelOf cur ∧
      p.isConfirmed = decide (labelOf cur = confirmedL) := by
  unfold processPassenger at h
  split at h
  · simp at h
  · rw [hc] at h
    rw [show asStr (JSValue.str cur) = some cur from rfl] at h
    rcases hn : asStr (jsGet q kName) with _ | nm <;> simp only [hn] at h
    · simp at h
    · rw [← Except.ok.inj h]
      exact ⟨rfl, rfl⟩

lemma filter_length_eraseIdx {α : Type} (P : α → Bool) :
    ∀ (l : List α) (i : Nat) (hi : i < l.length), P (l.get ⟨i, hi⟩) = false →
      (l.filter P).length = ((l.eraseIdx i).filter P).length := by
  intro l
  induction l with
  | nil =>
    intro i hi
    exact absurd hi (by simp)
  | cons x t ih =>
    intro i hi hP
    cases i with
    | zero =>
      have hx : P x = false := hP
      simp [List.eraseIdx, List.filter, hx]
    | succ n =>
      have hn : n < t.length := Nat.lt_of_succ_lt_succ hi
      have hrec := ih n hn hP
      simp only [List.eraseIdx, List.filter]
      cases hx : P x <;> simp [hrec]

lemma all_false_of_mem {α : Type} (P : α → Bool) (l : List α) (x : α)
    (hx : x ∈ l) (hP : P x = false) : l.all P = false := by
  by_cases h : l.all P
  · have h2 := List.all_eq_true.mp h x hx
    rw [hP] at h2
    exact absurd h2 (by simp)
  · simpa using h

/-- A well-formed passenger input: an object-like value whose name and
    current fields are strings (processing never throws on these). -/
def passengerWF (q : JSValue) : Bool :=
  !(isNullish q) && (asStr (jsGet q kName)).isSome &&
    (asStr (jsGet q kCurrent)).isSome

lemma processPassenger_ok_of_wf (q : JSValue) (h : passengerWF q = true) :
    ∃ p, processPassenger q = .ok p := by
  unfold passengerWF at h
  simp only [Bool.and_eq_true, Bool.not_eq_true'] at h
  obtain ⟨⟨hnull, hname⟩, hcur⟩ := h
  unfold processPassenger
  rcases hc : asStr (jsGet q kCurrent) with _ | cur
  · rw [hc] at hcur; simp at hcur
  · rcases hn : asStr (jsGet q kName) with _ | nm
    · rw [hn] at hname; simp at hname
    · rw [hnull]
      exact ⟨_, rfl⟩

lemma mapPassengers_ok_of_wf :
    ∀ (l : List JSValue), (∀ q ∈ l, passengerWF q = true) →
      ∃ pp, mapPassengers l = .ok pp := by
  intro l
  induction l with
  | nil => intro _; exact ⟨[], rfl⟩
  | cons q qs ih =>
    intro h
    obtain ⟨p, hp⟩ := processPassenger_ok_of_wf q (h q (List.mem_cons_self _ _))
    obtain ⟨pp, hpp⟩ := ih (fun x hx => h x (List.mem_cons_of_mem _ hx))
    refine ⟨p :: pp, ?_⟩
    simp only [mapPassengers]
    rw [hp, hpp]

/-- `typeof pnr === 'string' && /^\d{10}$/.test(pnr)`. -/
def pnrFieldOk (x : JSValue) : Bool :=
  match asStr x with
  | some s => pnr10 s
  | none => false

/-- `!Array.isArray(passengers) || passengers.length === 0`. -/
def passengersFieldBad (x : JSValue) : Bool :=
  match asArr x with
  | some ps => ps.isEmpty
  | none => true

/-! ## PNR claim theorems -/

/-- C3: once a report is produced, allConfirmed and chartPrepared are
    computed by the identical predicate — true exactly when every
    processed passenger's statusLabel is CONFIRMED or CANCELLED (so a
    list of only CANCELLED and CONFIRMED entries yields allConfirmed
    true) — and anyWaiting is true exactly when some passenger's
    statusLabel is WAITING. -/
theorem pnr_flags_identical (v : JSValue) (r : PNRReport)
    (h : processRailwayPNR v = .ok (some r)) :
    (r.summary.allConfirmed = true ↔
      ∀ p ∈ r.passengers, p.statusLabel = confirmedL ∨ p.statusLabel = cancelledL) ∧
    r.chartPrepared = r.summary.allConfirmed ∧
    (r.summary.anyWaiting = true ↔
      ∃ p ∈ r.passengers, p.statusLabel = waitingL) := by
  obtain ⟨pnr, ps, pp, _, _, _, _, _, _, hr⟩ := process_ok_inv v r h
  subst hr
  refine ⟨?_, rfl, ?_⟩
  · simp [buildReport, List.all_eq_true]
  · simp [buildReport, List.any_eq_true]

def c3input : JSValue :=
  .obj [(kPnr, .str ("1234567890".data)),
        (kTrain, .obj [(kNumber, .str ("12301".data))]),
        (kPassengers, .arr [
          .obj [(kName, .str ("A".data)), (kCurrent, .str ("B1".data))],
          .obj [(kName, .str ("B".data)), (kCurrent, .str ("CAN".data))]])]

theorem pnr_flags_identical_witness :
    ∃ r, processRailwayPNR c3input = .ok (some r) ∧
      r.chartPrepared = r.summary.allConfirmed ∧
      r.summary.allConfirmed = true ∧ r.summary.anyWaiting = false := by
  refine ⟨_, rfl, (pnr_flags_identical c3input _ rfl).2.1, ?_, ?_⟩
  · rfl
  · rfl

/-- C4: in a produced report, an input passenger whose `current` string
    matches none of the four status rules (no B/S/WL/RAC prefix and not
    equal to CAN) yields the empty status label, is not confirmed, is
    counted by none of the four summary buckets (each bucket count
    equals the count over the list with that passenger removed), and
    forces allConfirmed and chartPrepared to false. -/
theorem pnr_unmatched_passenger (v : JSValue) (r : PNRReport)
    (ps : List JSValue) (i : Nat) (hi : i < ps.length) (cur : Str)
    (hps : jsGet v kPassengers = .arr ps)
    (hc : jsGet (ps.get ⟨i, hi⟩) kCurrent = .str cur)
    (hb : strStarts bL cur = false) (hsS : strStarts sL cur = false)
    (hwl : strStarts wlL cur = false) (hcan : cur ≠ canL)
    (hrac : strStarts racPreL cur = false)
    (h : processRailwayPNR v = .ok (some r)) :
    ∃ hi' : i < r.passengers.length,
      (r.passengers.get ⟨i, hi'⟩).statusLabel = [] ∧
      (r.passengers.get ⟨i, hi'⟩).isConfirmed = false ∧
      r.summary.confirmed = cntLabel confirmedL (r.passengers.eraseIdx i) ∧
      r.summary.waiting = cntLabel waitingL (r.passengers.eraseIdx i) ∧
      r.summary.cancelled = cntLabel cancelledL (r.passengers.eraseIdx i) ∧
      r.summary.rac = cntLabel racL (r.passengers.eraseIdx i) ∧
      r.summary.allConfirmed = false ∧ r.chartPrepared = false := by
  obtain ⟨pnr, ps', pp, hpnr, h10, htr, hps', hemp, hpp, hr⟩ := process_ok_inv v r h
  have hpseq : ps' = ps := by
    rw [hps] at hps'
    exact (Option.some.inj hps').symm
  rw [hpseq] at hpp
  subst hr
  have hlen := mapPassengers_length ps pp hpp
  have hi' : i < pp.length := by rw [hlen]; exact hi
  have hget := mapPassengers_get ps pp hpp i hi hi'
  obtain ⟨hlab, hconf⟩ := processPassenger_ok_label _ _ cur hc hget
  have hlab0 : labelOf cur = [] := by
    simp [labelOf, hb, hsS, hwl, hcan, hrac]
  refine ⟨hi', ?_, ?_, ?_, ?_, ?_, ?_, ?_, ?_⟩
  · show (pp.get ⟨i, hi'⟩).statusLabel = []
    rw [hlab, hlab0]
  · show (pp.get ⟨i, hi'⟩).isConfirmed = false
    rw [hconf, hlab0]
    decide
  · show cntLabel confirmedL pp = cntLabel confirmedL (pp.eraseIdx i)
    unfold cntLabel
    exact filter_length_eraseIdx _ pp i hi' (by rw [hlab, hlab0]; decide)
  · show cntLabel waitingL pp = cntLabel waitingL (pp.eraseIdx i)
    unfold cntLabel
    exact filter_length_eraseIdx _ pp i hi' (by rw [hlab, hlab0]; decide)
  · show cntLabel cancelledL pp = cntLabel cancelledL (pp.eraseIdx i)
    unfold cntLabel
    exact filter_length_eraseIdx _ pp i hi' (by rw [hlab, hlab0]; decide)
  · show cntLabel racL pp = cntLabel racL (pp.eraseIdx i)
    unfold cntLabel
    exact filter_length_eraseIdx _ pp i hi' (by rw [hlab, hlab0]; decide)
  · show pp.all _ = false
    exact all_false_of_mem _ pp _ (List.get_mem pp i hi')
      (by rw [hlab, hlab0]; decide)
  · show pp.all _ = false
    exact all_false_of_mem _ pp _ (List.get_mem pp i hi')
      (by rw [hlab, hlab0]; decide)

def c4ps : List JSValue :=
  [.obj [(kName, .str ("X".data)), (kCurrent, .str ("XYZ".data))],
   .obj [(kName, .str ("Y".data)), (kCurrent, .str ("B2".data))]]

def c4input : JSValue :=
  .obj [(kPnr, .str ("1234567890".data)),
        (kTrain, .obj [(kNumber, .str ("12301".data))]),
        (kPassengers, .arr c4ps)]

theorem pnr_unmatched_passenger_witness :
    ∃ r, processRailwayPNR c4input = .ok (some r) ∧
      r.summary.allConfirmed = false ∧ r.chartPrepared = false := by
  obtain ⟨r, hr⟩ : ∃ r, processRailwayPNR c4input = .ok (some r) := ⟨_, rfl⟩
  obtain ⟨hi', _, _, _, _, _, _, hall, hchart⟩ :=
    pnr_unmatched_passenger c4input r c4ps 0 (by decide) ("XYZ".data) rfl rfl
      (by decide) (by decide) (by decide) (by decide) (by decide) hr
  exact ⟨r, hr, hall, hchart⟩

/-- C5: processRailwayPNR returns null (none) for any non-object input,
    for any object whose pnr is not a string of exactly 10 digits, for
    any object whose train field is absent, and for any object whose
    passengers field is not a non-empty array — each condition
    independently — and returns a report for every object input passing
    all the checks whose passengers are well-formed records. -/
theorem pnr_validation :
    (∀ v : JSValue, (∀ fields, v ≠ .obj fields) →
      processRailwayPNR v = .ok none) ∧
    (∀ fields, pnrFieldOk (jsGet (JSValue.obj fields) kPnr) = false →
      processRailwayPNR (.obj fields) = .ok none) ∧
    (∀ fields, jsGet (JSValue.obj fields) kTrain = .undefV →
      processRailwayPNR (.obj fields) = .ok none) ∧
    (∀ fields, passengersFieldBad (jsGet (JSValue.obj fields) kPassengers) = true →
      processRailwayPNR (.obj fields) = .ok none) ∧
    (∀ fields pnr ps, asStr (jsGet (JSValue.obj fields) kPnr) = some pnr →
      pnr10 pnr = true → isObjLike (jsGet (JSValue.obj fields) kTrain) = true →
      asArr (jsGet (JSValue.obj fields) kPassengers) = some ps →
      ps.isEmpty = false → (∀ q ∈ ps, passengerWF q = true) →
      ∃ r, processRailwayPNR (.obj fields) = .ok (some r)) := by
  refine ⟨?_, ?_, ?_, ?_, ?_⟩
  · intro v hv
    cases v
    case obj fields => exact absurd rfl (hv fields)
    all_goals rfl
  · intro fields hbad
    unfold processRailwayPNR
    rw [if_neg (by simp [isObjLike])]
    unfold pnrFieldOk at hbad
    rcases hstr : asStr (jsGet (JSValue.obj fields) kPnr) with _ | p <;>
      simp only [hstr] at hbad ⊢
    rw [if_pos hbad]
  · intro fields htr
    unfold processRailwayPNR
    rw [if_neg (by simp [isObjLike])]
    rcases hstr : asStr (jsGet (JSValue.obj fields) kPnr) with _ | p <;>
      simp only [hstr]
    by_cases h10 : pnr10 p = false
    · rw [if_pos h10]
    · rw [if_neg h10, if_pos (by rw [htr]; rfl)]
  · intro fields hbad
    unfold processRailwayPNR
    rw [if_neg (by simp [isObjLike])]
    rcases hstr : asStr (jsGet (JSValue.obj fields) kPnr) with _ | p <;>
      simp only [hstr]
    by_cases h10 : pnr10 p = false
    · rw [if_pos h10]
    · rw [if_neg h10]
      by_cases htr : isObjLike (jsGet (JSValue.obj fields) kTrain) = false
      · rw [if_pos htr]
      · rw [if_neg htr]
        unfold passengersFieldBad at hbad
        rcases hps : asArr (jsGet (JSValue.obj fields) kPassengers) with _ | ps <;>
          simp only [hps] at hbad ⊢
        rw [if_pos hbad]
  · intro fields pnr ps hpnr h10 htr hps hne hwf
    obtain ⟨pp, hpp⟩ := mapPassengers_ok_of_wf ps hwf
    refine ⟨buildReport pnr (jsGet (JSValue.obj fields) kTrain)
      (jsGet (JSValue.obj fields) kClassBooked) pp, ?_⟩
    unfold processRailwayPNR
    rw [if_neg (by simp [isObjLike])]
    simp only [hpnr]
    rw [if_neg (by rw [h10]; simp)]
    rw [if_neg (by rw [htr]; simp)]
    simp only [hps]
    rw [if_neg (by rw [hne]; simp)]
    simp only [hpp]

def c5passList : List JSValue :=
  [.obj [(kName, .str ("Rahul".data)), (kAgeF, .num 28), (kGender, .str ("M".data)),
         (kBooking, .str ("B1".data)), (kCurrent, .str ("B1".data))]]

def c5fields : List (String × JSValue) :=
  [(kPnr, .str ("1234567890".data)),
   (kTrain, .obj [(kNumber, .str ("12301".data))]),
   (kPassengers, .arr c5passList)]

theorem pnr_validation_witness :
    processRailwayPNR (.num 5) = .ok none ∧
    processRailwayPNR (.obj [(kPnr, .str ("123".data))]) = .ok none ∧
    processRailwayPNR (.obj [(kPnr, .str ("1234567890".data))]) = .ok none ∧
    processRailwayPNR (.obj [(kPnr, .str ("1234567890".data)),
      (kTrain, .obj []), (kPassengers, .arr [])]) = .ok none ∧
    (∃ r, processRailwayPNR (.obj c5fields) = .ok (some r)) := by
  refine ⟨?_, ?_, ?_, ?_, ?_⟩
  · exact pnr_validation.1 (.num 5) (fun fields h => JSValue.noConfusion h)
  · exact pnr_validation.2.1 _ (by decide)
  · exact pnr_validation.2.2.1 _ rfl
  · exact pnr_validation.2.2.2.1 _ (by decide)
  · exact pnr_validation.2.2.2.2 c5fields ("1234567890".data) c5passList rfl
      (by decide) rfl rfl (by decide) (by decide)

def c8input : JSValue :=
  .obj [(kPnr, .str ("1234567890".data)),
        (kTrain, .obj [(kNumber, .str ("12301".data))]),
        (kPassengers, .arr [.obj [(kName, .str ("Rahul".data)), (kAgeF, .num 28),
          (kGender, .str ("M".data)), (kBooking, .str ("B1".data))]])]

/-- C8: processRailwayPNR validates only pnr, train and the passengers
    array itself, never per-passenger fields: c8input passes all three
    structural checks, but its single passenger has no `current` string,
    so the call throws a TypeError (current.startsWith on undefined)
    instead of returning null or a report. -/
theorem pnr_throws_on_missing_current :
    pnrFieldOk (jsGet c8input kPnr) = true ∧
    isObjLike (jsGet c8input kTrain) = true ∧
    passengersFieldBad (jsGet c8input kPassengers) = false ∧
    processRailwayPNR c8input =
      .error (.typeError "current.startsWith is not a function") :=
  ⟨by decide, rfl, by decide, by rfl⟩
